import Mathlib

/-!
# Verification of the codePost upload helpers

A shallow embedding of `src/codepost_api/helpers.py` (the authoritative
reconciliation engine of the repository).  Remote reads are modelled by a
`Gateway` environment supplying the data that `get_assignment_submissions`
and `get_file` would fetch; remote mutations (POST/PATCH/DELETE) are not
executed but recorded in an ordered trace of `GatewayCall`s.  Python
dictionaries that the code iterates over are modelled as insertion-ordered
association lists, matching CPython semantics (insertion order preserved,
re-insertion of a key updates the value in place).  Python runtime errors
that the code can hit (`KeyError` from `existing_submissions[0]` on a dict
keyed by submission ids, `TypeError` from iterating a dict and treating the
keys as submission records) are modelled as explicit error outcomes.
-/

namespace CodePost

/-- The nine boolean flags of `mode.value` (an upload policy). -/
structure Mode where
  updateIfExists : Bool
  updateIfClaimed : Bool
  resolveStudents : Bool
  addFiles : Bool
  updateExistingFiles : Bool
  deleteUnspecifiedFiles : Bool
  removeComments : Bool
  doUnclaim : Bool
  deleteAffectedSubmissions : Bool
deriving DecidableEq, Repr

/-- `UploadModes.CAUTIOUS`. -/
def CAUTIOUS : Mode := ⟨false, false, false, false, false, false, false, false, false⟩

/-- `UploadModes.EXTEND`. -/
def EXTEND : Mode := ⟨true, false, true, true, false, false, false, false, false⟩

/-- `UploadModes.DIFFSCAN`. -/
def DIFFSCAN : Mode := ⟨true, false, true, true, true, false, false, false, false⟩

/-- `UploadModes.OVERWRITE`. -/
def OVERWRITE : Mode := ⟨true, true, true, true, true, true, true, true, true⟩

/-- `UploadModes.PREGRADE`. -/
def PREGRADE : Mode := ⟨true, false, true, true, true, true, true, false, true⟩

/-- A remote file record, as returned by `get_file`. -/
structure SubFile where
  id : Nat
  name : String
  extension : String
  code : String
deriving DecidableEq, Repr

/-- A desired file in an upload request (`{"name": .., "extension": .., "code": ..}`). -/
structure NewFile where
  name : String
  extension : String
  code : String
deriving DecidableEq, Repr

/-- A remote submission record, as returned by `get_assignment_submissions`. -/
structure Submission where
  id : Nat
  students : List String
  grader : Option String
  files : List Nat
deriving DecidableEq, Repr

/-- The read-only remote environment: what the GET endpoints would return. -/
structure Gateway where
  /-- `get_assignment_submissions(api_key, assignment_id, student)`. -/
  submissionsFor : Nat → String → List Submission
  /-- `get_file(api_key, file_id)`. -/
  fileById : Nat → SubFile
  /-- The id the server would assign to a newly created submission. -/
  nextSubmissionId : Nat

/-- A remote mutation (POST/PATCH/DELETE) issued by the helpers. -/
inductive GatewayCall where
  | postSubmission (assignmentId : Nat) (students : List String)
  | postFile (submissionId : Nat) (name : String) (code : String) (extension : String)
  | deleteFile (fileId : Nat)
  | deleteSubmission (submissionId : Nat)
  | patchStudents (submissionId : Nat) (students : List String)
  | patchGrader (submissionId : Nat) (grader : String) (isFinalized : Option Bool)
  | removeComments (submissionId : Nat)
deriving DecidableEq, Repr

/-- How an `upload_submission` call can fail: the three `UploadError` policy
violations, plus the two Python runtime errors the code can raise. -/
inductive PyError where
  | existsConflict
  | claimedConflict
  | studentSetConflict
  | keyError
  | typeError
deriving DecidableEq, Repr

/-- What `upload_submission` returns on success: the created submission's
record (cases 1 and 2) or the literal `True` (case 3). -/
inductive UploadReturn where
  | createdSubmission (s : Submission)
  | retTrue
deriving DecidableEq, Repr

/-- Insert into an insertion-ordered association list with Python-dict
semantics: re-inserting an existing key updates the value in place. -/
def assocInsert {α β : Type} [BEq α] (m : List (α × β)) (k : α) (v : β) :
    List (α × β) :=
  if m.any (fun p => p.1 == k) then
    m.map (fun p => if p.1 == k then (p.1, v) else p)
  else m ++ [(k, v)]

/-- Dict lookup `m[k]`, `none` modelling a `KeyError`. -/
def assocLookup {α β : Type} [BEq α] (m : List (α × β)) (k : α) : Option β :=
  (m.find? (fun p => p.1 == k)).map (fun p => p.2)

/-- The dict build loop of `upload_submission`: for each student, fetch their
submissions and store each under `submission["id"]`. -/
def buildExisting (gw : Gateway) (assignmentId : Nat) (students : List String) :
    List (Nat × Submission) :=
  students.foldl
    (fun m student =>
      (gw.submissionsFor assignmentId student).foldl
        (fun m sub => assocInsert m sub.id sub) m)
    []

/-- `_submission_list_is_unclaimed`: `True` iff `grader` is `None` for every
submission in the list. -/
def submission_list_is_unclaimed (subs : List Submission) : Bool :=
  subs.all (fun s => s.grader == none)

/-- Python `set(a) != set(b)` on string lists, as a Boolean set equality. -/
def sameSet (a b : List String) : Bool :=
  a.all (fun x => b.contains x) && b.all (fun x => a.contains x)

/-- `code.replace("\n", "")`: remove every newline character. -/
def stripNL (s : String) : String :=
  String.mk (s.data.filter (fun c => c != '\n'))

/-- `post_submission`: create a submission for the students, then POST every
desired file to it.  Returns the created record and the mutation trace. -/
def post_submission (gw : Gateway) (assignmentId : Nat) (students : List String)
    (files : List NewFile) : UploadReturn × List GatewayCall :=
  let sid := gw.nextSubmissionId
  (UploadReturn.createdSubmission ⟨sid, students, none, []⟩,
    GatewayCall.postSubmission assignmentId students ::
      files.map (fun f => GatewayCall.postFile sid f.name f.code f.extension))

/-- The dict comprehension of `_upload_submission_filediff`: existing files
keyed by `file["name"]` alone (a later file with the same name shadows an
earlier one, CPython dict-comprehension semantics). -/
def buildFileDict (gw : Gateway) (fileIds : List Nat) : List (String × SubFile) :=
  fileIds.foldl
    (fun m fid =>
      let f := gw.fileById fid
      assocInsert m f.name f) []

/-- The test `file["name"] in existing_files and
existing_files[file["name"]]["extension"] == file["extension"]`. -/
def matchesExisting (existing : List (String × SubFile)) (f : NewFile) :
    Option SubFile :=
  match assocLookup existing f.name with
  | some ef => if ef.extension == f.extension then some ef else none
  | none => none

/-- The body of the `for file in newest_files` loop of
`_upload_submission_filediff`, threading `(submission_was_modified, trace)`. -/
def filediffStep (sid : Nat) (mode : Mode) (existing : List (String × SubFile))
    (acc : Bool × List GatewayCall) (f : NewFile) : Bool × List GatewayCall :=
  match matchesExisting existing f with
  | some ef =>
      if mode.updateExistingFiles then
        if stripNL ef.code != stripNL f.code then
          (true, acc.2 ++ [GatewayCall.deleteFile ef.id,
            GatewayCall.postFile sid f.name f.code f.extension])
        else acc
      else acc
  | none =>
      if mode.addFiles then
        (true, acc.2 ++ [GatewayCall.postFile sid f.name f.code f.extension])
      else acc

/-- The trailing `deleteUnspecifiedFiles` pass of
`_upload_submission_filediff`: delete every existing file whose name is not
among the desired names. -/
def deletePass (mode : Mode) (existing : List (String × SubFile))
    (newNames : List String) (acc : Bool × List GatewayCall) :
    Bool × List GatewayCall :=
  if mode.deleteUnspecifiedFiles then
    existing.foldl
      (fun a p =>
        if newNames.contains p.1 then a
        else (true, a.2 ++ [GatewayCall.deleteFile p.2.id])) acc
  else acc

/-- `_upload_submission_filediff`: returns `submission_was_modified` and the
mutation trace. -/
def upload_submission_filediff (gw : Gateway) (sub : Submission)
    (newest_files : List NewFile) (mode : Mode) : Bool × List GatewayCall :=
  let existing := buildFileDict gw sub.files
  let acc := newest_files.foldl (filediffStep sub.id mode existing) (false, [])
  deletePass mode existing (newest_files.map (fun f => f.name)) acc

/-- The PATCH payload built by `set_submission_grader`. -/
structure GraderPayload where
  grader : String
  isFinalized : Option Bool
deriving DecidableEq, Repr

/-- `grader in [None, "", "None", "null"]`. -/
def isNullishGrader (grader : Option String) : Bool :=
  grader == none || grader == some "" || grader == some "None" ||
    grader == some "null"

/-- The payload of `set_submission_grader`: a nullish grader is patched as the
empty string together with `isFinalized = False`; otherwise only the grader
field is patched. -/
def set_submission_grader_payload (grader : Option String) : GraderPayload :=
  if isNullishGrader grader then ⟨"", some false⟩
  else ⟨grader.getD "", none⟩

/-- `set_submission_grader` as the PATCH it issues. -/
def set_submission_grader (submissionId : Nat) (grader : Option String) :
    GatewayCall :=
  GatewayCall.patchGrader submissionId (set_submission_grader_payload grader).grader
    (set_submission_grader_payload grader).isFinalized

/-- `unclaim_submission`: delegates to `set_submission_grader` with `None`. -/
def unclaim_submission (submissionId : Nat) : GatewayCall :=
  set_submission_grader submissionId none

/-- `remove_students_from_submission` on an actual submission record: delete
the submission when the remaining roster is empty, otherwise patch it. -/
def remove_students_from_submission (sub : Submission)
    (students_to_remove : List String) : List GatewayCall :=
  let new_student_list :=
    sub.students.filter (fun s => !students_to_remove.contains s)
  if new_student_list.length == 0 then [GatewayCall.deleteSubmission sub.id]
  else [GatewayCall.patchStudents sub.id new_student_list]

/-- The `resolveStudents` guard of `upload_submission`.  The code indexes the
dict `existing_submissions` with the key `0` (`existing_submissions[0]`), both
in the condition (single-submission case) and in the message of the raised
error (multi-submission case), so unless some submission has id `0` this
guard raises `KeyError` instead of the `UploadError`. -/
def resolveGuard (existing : List (Nat × Submission)) (students : List String)
    (mode : Mode) : Option PyError :=
  if mode.resolveStudents then none
  else if existing.length > 1 then
    match assocLookup existing 0 with
    | some _ => some PyError.studentSetConflict
    | none => some PyError.keyError
  else
    match assocLookup existing 0 with
    | some s0 =>
        if !sameSet students s0.students then some PyError.studentSetConflict
        else none
    | none => some PyError.keyError

/-- `upload_submission`: the orchestrator.  Returns the outcome (or error)
and the ordered trace of remote mutations performed.  In the split branch
(`len(existing_submissions) > 1`) the code iterates the dict itself, so each
loop variable is a key (an integer id); `remove_students_from_submission`
then evaluates `submission_info["students"]` on that integer and raises
`TypeError` on the first iteration, before issuing any mutation. -/
def upload_submission (gw : Gateway) (assignmentId : Nat)
    (students : List String) (files : List NewFile) (mode : Mode) :
    Except PyError UploadReturn × List GatewayCall :=
  let existing := buildExisting gw assignmentId students
  if existing.length == 0 then
    let r := post_submission gw assignmentId students files
    (Except.ok r.1, r.2)
  else if !mode.updateIfExists then
    (Except.error PyError.existsConflict, [])
  else if !mode.updateIfClaimed &&
      submission_list_is_unclaimed (existing.map (fun p => p.2)) then
    (Except.error PyError.claimedConflict, [])
  else
    match resolveGuard existing students mode with
    | some e => (Except.error e, [])
    | none =>
        if existing.length > 1 then
          (Except.error PyError.typeError, [])
        else
          let sub := (existing.map (fun p => p.2)).headD ⟨0, [], none, []⟩
          let fd := upload_submission_filediff gw sub files mode
          let finish :=
            if fd.1 then
              (if mode.removeComments then [GatewayCall.removeComments sub.id]
               else []) ++
              (if mode.doUnclaim then [unclaim_submission sub.id] else [])
            else []
          (Except.ok UploadReturn.retTrue,
            GatewayCall.patchStudents sub.id students :: fd.2 ++ finish)

/-! ## Fixtures: concrete gateways and records used in counterexamples and witnesses -/

def noFile : SubFile := ⟨0, "", "", ""⟩

def gwClaimed : Gateway :=
  ⟨fun _ s => if s = "alice" then [⟨1, ["alice"], some "grader@example.com", []⟩]
    else [], fun _ => noFile, 100⟩

def gwUnclaimed : Gateway :=
  ⟨fun _ s => if s = "alice" then [⟨1, ["alice"], none, []⟩] else [],
   fun _ => noFile, 100⟩

def gwSplit : Gateway :=
  ⟨fun _ s =>
      if s = "alice" then [⟨1, ["alice"], none, []⟩]
      else if s = "bob" then [⟨2, ["bob"], none, []⟩] else [],
   fun _ => noFile, 100⟩

/-- A custom policy with `resolveStudents` off but both update guards on. -/
def resolveOffMode : Mode := ⟨true, true, false, false, false, false, false, false, false⟩

def gwOther : Gateway :=
  ⟨fun _ s => if s = "bob" then [⟨1, ["alice"], none, []⟩] else [],
   fun _ => noFile, 100⟩

def gwSame : Gateway :=
  ⟨fun _ s => if s = "alice" then [⟨1, ["alice"], none, []⟩] else [],
   fun _ => noFile, 100⟩

def gwEmpty : Gateway := ⟨fun _ _ => [], fun _ => noFile, 42⟩

def exEf : SubFile := ⟨5, "a.py", "py", "x\n"⟩

def gwShadow : Gateway :=
  ⟨fun _ _ => [],
   fun fid => if fid = 1 then ⟨1, "a", "py", "x"⟩ else ⟨2, "a", "txt", "y"⟩,
   100⟩

def subShadow : Submission := ⟨7, ["alice"], none, [1, 2]⟩

def fileHw : SubFile := ⟨7, "hw.py", "py", "print(1)\n"⟩

def subSecond : Submission := ⟨100, ["alice"], none, [7]⟩

def gwSecond : Gateway :=
  ⟨fun _ s => if s = "alice" then [subSecond] else [], fun _ => fileHw, 101⟩

def fileA : SubFile := ⟨4, "a.py", "py", "x"⟩

def subOne : Submission := ⟨1, ["alice"], none, [4]⟩

def gwOne : Gateway :=
  ⟨fun _ s => if s = "alice" then [subOne] else [], fun _ => fileA, 50⟩

/-! ## Helper lemmas -/

theorem foldl_id_of_step_id {α β : Type} (step : β → α → β) (l : List α) (acc : β)
    (h : ∀ a ∈ l, ∀ b, step b a = b) : l.foldl step acc = acc := by
  induction l generalizing acc with
  | nil => rfl
  | cons x xs ih =>
      rw [List.foldl_cons, h x (List.mem_cons_self x xs)]
      exact ih acc (fun a ha b => h a (List.mem_cons_of_mem x ha) b)

theorem assocLookup_mem {α β : Type} [BEq α] (m : List (α × β)) (k : α) (v : β)
    (h : assocLookup m k = some v) : ∃ p ∈ m, p.2 = v := by
  unfold assocLookup at h
  rcases hf : m.find? (fun p => p.1 == k) with _ | p <;> rw [hf] at h
  · simp at h
  · simp at h
    exact ⟨p, List.mem_of_find?_eq_some hf, h⟩

theorem matchesExisting_mem (existing : List (String × SubFile)) (f : NewFile)
    (ef : SubFile) (h : matchesExisting existing f = some ef) :
    ∃ p ∈ existing, p.2 = ef := by
  unfold matchesExisting at h
  rcases hl : assocLookup existing f.name with _ | v <;> rw [hl] at h
  · simp at h
  · by_cases hx : (v.extension == f.extension) = true
    · simp only [hx, if_true] at h
      cases h
      exact assocLookup_mem existing f.name ef hl
    · simp [hx] at h

theorem filediffStep_noop (sid : Nat) (mode : Mode)
    (existing : List (String × SubFile)) (f : NewFile) (ef : SubFile)
    (hm : matchesExisting existing f = some ef)
    (he : stripNL ef.code = stripNL f.code) (acc : Bool × List GatewayCall) :
    filediffStep sid mode existing acc f = acc := by
  unfold filediffStep
  rw [hm]
  simp [he]

/-! ## The claims -/

/-- Claim C1: the code evaluates the claimed-submission guard through
`_submission_list_is_unclaimed`, which returns `True` when every grader is
null, so with `updateIfClaimed = false` the upload of a claimed submission
proceeds to the update branch while the upload of a fully unclaimed
submission is the one that raises the `ClaimedConflict` `UploadError` — the
exact inverse of the claim (and of the code's own error message). -/
theorem claimed_guard_inverted :
    upload_submission gwClaimed 1 ["alice"] [] EXTEND =
      (Except.ok UploadReturn.retTrue, [GatewayCall.patchStudents 1 ["alice"]]) ∧
    upload_submission gwUnclaimed 1 ["alice"] [] EXTEND =
      (Except.error PyError.claimedConflict, []) := ⟨rfl, rfl⟩

/-- Claim C3: in the split branch (two existing submissions) the code
iterates the `existing_submissions` dict itself, so each loop item is an
integer key; `remove_students_from_submission` subscripts that integer and
Python raises `TypeError` before any student removal, deletion, patch or
creation happens. -/
theorem split_branch_type_error :
    upload_submission gwSplit 1 ["alice", "bob"] [] OVERWRITE =
      (Except.error PyError.typeError, []) := rfl

/-- Claim C5: with `resolveStudents = false` the code evaluates
`existing_submissions[0]` on a dict keyed by submission ids, so unless some
submission has id `0` it raises `KeyError` instead of the
`StudentSetConflict` `UploadError` — both when the student sets differ and
when the single existing submission's student set equals the requested one
(where the claim says no guard should fire). -/
theorem resolve_students_guard_key_error :
    upload_submission gwOther 1 ["bob"] [] resolveOffMode =
      (Except.error PyError.keyError, []) ∧
    upload_submission gwSame 1 ["alice"] [] resolveOffMode =
      (Except.error PyError.keyError, []) := ⟨rfl, rfl⟩

theorem upload_submission_error_trace (gw : Gateway) (aid : Nat)
    (students : List String) (files : List NewFile) (mode : Mode) (e : PyError)
    (tr : List GatewayCall)
    (h : upload_submission gw aid students files mode = (Except.error e, tr)) :
    tr = [] := by
  unfold upload_submission at h
  rcases hE : buildExisting gw aid students with _ | ⟨p, rest⟩ <;> rw [hE] at h
  · simp at h
  · simp only [List.length_cons, beq_iff_eq, Nat.succ_ne_zero, if_false] at h
    repeat' split at h
    all_goals simp_all

/-- Claim C6: whenever `upload_submission` fails with one of the three
policy-violation `UploadError`s, its remote-mutation trace is empty: all
guard checks run strictly before the first mutation. -/
theorem policy_violation_no_mutations (gw : Gateway) (aid : Nat)
    (students : List String) (files : List NewFile) (mode : Mode) (e : PyError)
    (tr : List GatewayCall)
    (h : upload_submission gw aid students files mode = (Except.error e, tr))
    (_hp : e = PyError.existsConflict ∨ e = PyError.claimedConflict ∨
      e = PyError.studentSetConflict) :
    tr = [] :=
  upload_submission_error_trace gw aid students files mode e tr h

theorem policy_violation_no_mutations_witness :
    upload_submission gwSame 1 ["alice"] [] CAUTIOUS =
      (Except.error PyError.existsConflict, []) ∧ ([] : List GatewayCall) = [] :=
  ⟨rfl, policy_violation_no_mutations gwSame 1 ["alice"] [] CAUTIOUS
    PyError.existsConflict [] rfl (Or.inl rfl)⟩

/-- Claim C8: when no existing submission is found, `upload_submission`
creates exactly one submission with the requested students and then posts
every desired file to it, with no guard checks and no diffing, for every
policy. -/
theorem create_branch_exact (gw : Gateway) (aid : Nat) (students : List String)
    (files : List NewFile) (mode : Mode)
    (h : buildExisting gw aid students = []) :
    upload_submission gw aid students files mode =
      (Except.ok (UploadReturn.createdSubmission
        ⟨gw.nextSubmissionId, students, none, []⟩),
       GatewayCall.postSubmission aid students ::
         files.map (fun f =>
           GatewayCall.postFile gw.nextSubmissionId f.name f.code f.extension)) := by
  unfold upload_submission
  rw [h]
  simp [post_submission]

theorem create_branch_exact_witness :
    buildExisting gwEmpty 1 ["alice"] = [] ∧
    upload_submission gwEmpty 1 ["alice"] [⟨"a.py", "py", "x"⟩] CAUTIOUS =
      (Except.ok (UploadReturn.createdSubmission ⟨42, ["alice"], none, []⟩),
       [GatewayCall.postSubmission 1 ["alice"],
        GatewayCall.postFile 42 "a.py" "x" "py"]) :=
  ⟨rfl, create_branch_exact gwEmpty 1 ["alice"] [⟨"a.py", "py", "x"⟩] CAUTIOUS rfl⟩

/-- Claim C9: `set_submission_grader` with a null/empty grader (the values
`None`, `""`, `"None"`, `"null"`) patches the grader to the empty string and
simultaneously sets `isFinalized` to `False`; `unclaim_submission` is exactly
this call with `None`. -/
theorem unclaim_forces_unfinalize (sid : Nat) (g : Option String)
    (h : isNullishGrader g = true) :
    set_submission_grader sid g = GatewayCall.patchGrader sid "" (some false) ∧
    unclaim_submission sid = GatewayCall.patchGrader sid "" (some false) := by
  constructor
  · simp [set_submission_grader, set_submission_grader_payload, h]
  · rfl

theorem unclaim_forces_unfinalize_witness :
    isNullishGrader none = true ∧
    (set_submission_grader 5 none = GatewayCall.patchGrader 5 "" (some false) ∧
     unclaim_submission 5 = GatewayCall.patchGrader 5 "" (some false)) :=
  ⟨rfl, unclaim_forces_unfinalize 5 none rfl⟩

/-- Claim C7: a desired file that matches an existing file by name and
extension, with equal content after removing every newline character, is a
no-op for the reconciler: its per-file step performs no delete or create and
leaves the modified flag untouched, erasing it from the desired list does not
change the main fold, and the matched existing entry is skipped by the
`deleteUnspecifiedFiles` pass whenever the file's name is among the desired
names. -/
theorem newline_insensitive_no_modification (sid : Nat) (mode : Mode)
    (existing : List (String × SubFile)) (f : NewFile) (ef : SubFile)
    (hm : matchesExisting existing f = some ef)
    (he : stripNL ef.code = stripNL f.code) :
    (∀ acc, filediffStep sid mode existing acc f = acc) ∧
    (∀ (acc : Bool × List GatewayCall) (pre post : List NewFile),
      (pre ++ f :: post).foldl (filediffStep sid mode existing) acc =
        (pre ++ post).foldl (filediffStep sid mode existing) acc) ∧
    (∀ (e1 e2 : List (String × SubFile)) (names : List String)
        (acc : Bool × List GatewayCall), names.contains f.name = true →
      deletePass mode (e1 ++ (f.name, ef) :: e2) names acc =
        deletePass mode (e1 ++ e2) names acc) := by
  refine ⟨filediffStep_noop sid mode existing f ef hm he,
    fun acc pre post => ?_, fun e1 e2 names acc hn => ?_⟩
  · rw [List.foldl_append, List.foldl_append, List.foldl_cons,
      filediffStep_noop sid mode existing f ef hm he]
  · have hn' : f.name ∈ names := by simpa using hn
    unfold deletePass
    cases hd : mode.deleteUnspecifiedFiles
    · simp
    · simp [List.foldl_append, hn']

theorem newline_insensitive_no_modification_witness :
    matchesExisting [("a.py", exEf)] ⟨"a.py", "py", "x"⟩ = some exEf ∧
    stripNL exEf.code = stripNL (NewFile.mk "a.py" "py" "x").code ∧
    filediffStep 9 DIFFSCAN [("a.py", exEf)] (false, []) ⟨"a.py", "py", "x"⟩ =
      (false, []) :=
  ⟨by decide, by decide,
    (newline_insensitive_no_modification 9 DIFFSCAN [("a.py", exEf)]
      ⟨"a.py", "py", "x"⟩ exEf (by decide) (by decide)).1 (false, [])⟩

theorem assocInsert_fst_nodup (m : List (String × SubFile)) (k : String)
    (v : SubFile) (h : (m.map Prod.fst).Nodup) :
    ((assocInsert m k v).map Prod.fst).Nodup := by
  unfold assocInsert
  split
  · have he : (m.map (fun p => if p.1 == k then (p.1, v) else p)).map Prod.fst
        = m.map Prod.fst := by
      rw [List.map_map]
      apply List.map_congr_left
      intro p _
      by_cases hp : (p.1 == k) = true
      · simp [Function.comp, hp]
      · simp [Function.comp, hp]
    rw [he]
    exact h
  · rename_i hany
    rw [List.map_append]
    refine List.Nodup.append h (by simp) ?_
    intro a ha hb
    simp at hb
    subst hb
    apply hany
    rw [List.any_eq_true]
    obtain ⟨p, hp, hpk⟩ := List.mem_map.mp ha
    exact ⟨p, hp, by simp [hpk]⟩

theorem buildFileDict_keys_nodup (gw : Gateway) (ids : List Nat) :
    ((buildFileDict gw ids).map Prod.fst).Nodup := by
  unfold buildFileDict
  suffices hgen : ∀ (l : List Nat) (m : List (String × SubFile)),
      (m.map Prod.fst).Nodup →
      ((l.foldl (fun m fid =>
          assocInsert m (gw.fileById fid).name (gw.fileById fid)) m).map
        Prod.fst).Nodup by
    exact hgen ids [] (by simp)
  intro l
  induction l with
  | nil => intro m hm; exact hm
  | cons x xs ih =>
      intro m hm
      rw [List.foldl_cons]
      exact ih _ (assocInsert_fst_nodup m _ _ hm)

theorem filediffStep_deleteFile (sid : Nat) (mode : Mode)
    (existing : List (String × SubFile)) (i : Nat)
    (b : Bool × List GatewayCall) (f : NewFile)
    (hb : GatewayCall.deleteFile i ∈ b.2 → ∃ p ∈ existing, p.2.id = i)
    (hin : GatewayCall.deleteFile i ∈ (filediffStep sid mode existing b f).2) :
    ∃ p ∈ existing, p.2.id = i := by
  rcases hm : matchesExisting existing f with _ | ef
  · by_cases ha : mode.addFiles = true <;>
      simp only [filediffStep, hm, ha, Bool.false_eq_true, if_true, if_false] at hin <;>
      [skip; exact hb hin]
    simp at hin
    exact hb hin
  · by_cases hu : mode.updateExistingFiles = true
    · by_cases hne : (stripNL ef.code != stripNL f.code) = true
      · simp only [filediffStep, hm, hu, hne, if_true] at hin
        simp at hin
        rcases hin with hin | hin
        · exact hb hin
        · obtain ⟨p, hp, hpe⟩ := matchesExisting_mem existing f ef hm
          exact ⟨p, hp, by rw [hpe]; exact hin.symm⟩
      · simp only [filediffStep, hm, hu, hne, Bool.false_eq_true, if_true,
          if_false] at hin
        exact hb hin
    · simp only [filediffStep, hm, hu, Bool.false_eq_true, if_false] at hin
      exact hb hin

theorem filediff_fold_deleteFile (sid : Nat) (mode : Mode)
    (existing : List (String × SubFile)) (i : Nat) (fs : List NewFile) :
    ∀ (acc : Bool × List GatewayCall),
      (GatewayCall.deleteFile i ∈ acc.2 → ∃ p ∈ existing, p.2.id = i) →
      GatewayCall.deleteFile i ∈
        (fs.foldl (filediffStep sid mode existing) acc).2 →
      ∃ p ∈ existing, p.2.id = i := by
  induction fs with
  | nil => intro acc hacc h; exact hacc h
  | cons f fs ih =>
      intro acc hacc h
      rw [List.foldl_cons] at h
      refine ih _ (fun hh => ?_) h
      exact filediffStep_deleteFile sid mode existing i acc f hacc hh

theorem deletePass_fold_aux (names : List String) (i : Nat)
    (l : List (String × SubFile)) :
    ∀ (acc : Bool × List GatewayCall),
      GatewayCall.deleteFile i ∈
        (l.foldl (fun a p => if names.contains p.1 then a
          else (true, a.2 ++ [GatewayCall.deleteFile p.2.id])) acc).2 →
      GatewayCall.deleteFile i ∈ acc.2 ∨ ∃ p ∈ l, p.2.id = i := by
  induction l with
  | nil => intro acc h; exact Or.inl h
  | cons x xs ih =>
      intro acc h
      rw [List.foldl_cons] at h
      rcases ih _ h with h' | ⟨p, hp, hpi⟩
      · by_cases hc : names.contains x.1 = true
        · rw [if_pos hc] at h'
          exact Or.inl h'
        · rw [if_neg hc] at h'
          simp at h'
          rcases h' with h' | h'
          · exact Or.inl h'
          · exact Or.inr ⟨x, List.mem_cons_self x xs, h'.symm⟩
      · exact Or.inr ⟨p, List.mem_cons_of_mem x hp, hpi⟩

theorem deletePass_deleteFile (mode : Mode) (existing : List (String × SubFile))
    (names : List String) (i : Nat) (acc : Bool × List GatewayCall)
    (hacc : GatewayCall.deleteFile i ∈ acc.2 → ∃ p ∈ existing, p.2.id = i)
    (hin : GatewayCall.deleteFile i ∈ (deletePass mode existing names acc).2) :
    ∃ p ∈ existing, p.2.id = i := by
  unfold deletePass at hin
  split at hin
  · rcases deletePass_fold_aux names i existing acc hin with h | h
    · exact hacc h
    · exact h
  · exact hacc hin

/-- Claim C10: the reconciler indexes a submission's existing files by name
alone: the name-keyed index holds at most one entry per name, and a file of
the submission whose id is not among the index's values (a file shadowed by
another file of the same name) is never deleted by the reconciler — so it is
never replaced and never removed by the `deleteUnspecifiedFiles` pass — for
every policy and every desired file list. -/
theorem shadowed_file_never_touched (gw : Gateway) (sub : Submission)
    (files : List NewFile) (mode : Mode) (fid : Nat)
    (_hmem : fid ∈ sub.files)
    (hshadow : ∀ p ∈ buildFileDict gw sub.files,
      p.2.id ≠ (gw.fileById fid).id) :
    ((buildFileDict gw sub.files).map Prod.fst).Nodup ∧
    GatewayCall.deleteFile (gw.fileById fid).id ∉
      (upload_submission_filediff gw sub files mode).2 := by
  refine ⟨buildFileDict_keys_nodup gw sub.files, fun hin => ?_⟩
  unfold upload_submission_filediff at hin
  obtain ⟨p, hp, hpi⟩ := deletePass_deleteFile mode (buildFileDict gw sub.files)
    (files.map (fun f => f.name)) ((gw.fileById fid).id)
    (files.foldl (filediffStep sub.id mode (buildFileDict gw sub.files))
      (false, []))
    (fun hh => filediff_fold_deleteFile sub.id mode (buildFileDict gw sub.files)
      ((gw.fileById fid).id) files (false, []) (by simp) hh) hin
  exact hshadow p hp hpi

theorem shadowed_file_never_touched_witness :
    1 ∈ subShadow.files ∧
    (∀ p ∈ buildFileDict gwShadow subShadow.files,
      p.2.id ≠ (gwShadow.fileById 1).id) ∧
    (((buildFileDict gwShadow subShadow.files).map Prod.fst).Nodup ∧
     GatewayCall.deleteFile (gwShadow.fileById 1).id ∉
       (upload_submission_filediff gwShadow subShadow [] OVERWRITE).2) :=
  ⟨by decide, by decide,
    shadowed_file_never_touched gwShadow subShadow [] OVERWRITE 1
      (by decide) (by decide)⟩

theorem upload_update_branch (gw : Gateway) (aid : Nat) (students : List String)
    (files : List NewFile) (mode : Mode) (sid0 : Nat) (sub : Submission)
    (hE : buildExisting gw aid students = [(sid0, sub)])
    (hex : mode.updateIfExists = true)
    (hcl : (!mode.updateIfClaimed && submission_list_is_unclaimed [sub]) = false)
    (hrg : resolveGuard [(sid0, sub)] students mode = none) :
    upload_submission gw aid students files mode =
      (Except.ok UploadReturn.retTrue,
        GatewayCall.patchStudents sub.id students ::
          ((upload_submission_filediff gw sub files mode).2 ++
            (if (upload_submission_filediff gw sub files mode).1 then
              (if mode.removeComments then [GatewayCall.removeComments sub.id]
               else []) ++
              (if mode.doUnclaim then [unclaim_submission sub.id] else [])
            else []))) := by
  unfold upload_submission
  rw [hE]
  simp [hex, hcl, hrg]

theorem filediff_unchanged (gw : Gateway) (sub : Submission)
    (files : List NewFile) (mode : Mode)
    (hfiles : ∀ f ∈ files, ∃ ef,
      matchesExisting (buildFileDict gw sub.files) f = some ef ∧
        stripNL ef.code = stripNL f.code)
    (hnames : ∀ p ∈ buildFileDict gw sub.files,
      (files.map (fun f => f.name)).contains p.1 = true) :
    upload_submission_filediff gw sub files mode = (false, []) := by
  simp only [upload_submission_filediff]
  have h1 : files.foldl (filediffStep sub.id mode (buildFileDict gw sub.files))
      (false, []) = (false, []) := by
    apply foldl_id_of_step_id
    intro f hf b
    obtain ⟨ef, hm, he⟩ := hfiles f hf
    exact filediffStep_noop sub.id mode (buildFileDict gw sub.files) f ef hm he b
  rw [h1]
  unfold deletePass
  split
  · apply foldl_id_of_step_id
    intro p hp b
    rw [if_pos (hnames p hp)]
  · rfl

/-- Claim C2 (amended): a second identical upload under the Overwrite policy
performs no file delete/create, no comment removal and no unclaim — the
reconciler reports unmodified — but it still issues the unconditional
students PATCH of the update branch and returns the literal `True`, so the
second call is not mutation-free. -/
theorem overwrite_second_call_only_patch (gw : Gateway) (aid : Nat)
    (students : List String) (files : List NewFile) (sid0 : Nat)
    (sub : Submission)
    (hE : buildExisting gw aid students = [(sid0, sub)])
    (hfiles : ∀ f ∈ files, ∃ ef,
      matchesExisting (buildFileDict gw sub.files) f = some ef ∧
        stripNL ef.code = stripNL f.code)
    (hnames : ∀ p ∈ buildFileDict gw sub.files,
      (files.map (fun f => f.name)).contains p.1 = true) :
    upload_submission gw aid students files OVERWRITE =
      (Except.ok UploadReturn.retTrue,
        [GatewayCall.patchStudents sub.id students]) := by
  rw [upload_update_branch gw aid students files OVERWRITE sid0 sub hE rfl rfl
    rfl, filediff_unchanged gw sub files OVERWRITE hfiles hnames]
  rfl

theorem overwrite_second_call_only_patch_witness :
    buildExisting gwSecond 1 ["alice"] = [(100, subSecond)] ∧
    upload_submission gwSecond 1 ["alice"] [⟨"hw.py", "py", "print(1)\n"⟩]
        OVERWRITE =
      (Except.ok UploadReturn.retTrue,
        [GatewayCall.patchStudents 100 ["alice"]]) := by
  refine ⟨rfl, ?_⟩
  refine overwrite_second_call_only_patch gwSecond 1 ["alice"]
    [⟨"hw.py", "py", "print(1)\n"⟩] 100 subSecond rfl ?_ ?_
  · intro f hf
    rcases List.mem_singleton.mp hf with rfl
    exact ⟨fileHw, by decide, by decide⟩
  · decide

/-- The original C2 statement fails on the code: the second identical call
still performs a Gateway mutation, namely the unconditional students PATCH
of the update branch. -/
theorem overwrite_second_call_still_patches :
    (upload_submission gwSecond 1 ["alice"] [⟨"hw.py", "py", "print(1)\n"⟩]
        OVERWRITE).2 = [GatewayCall.patchStudents 100 ["alice"]] ∧
    [GatewayCall.patchStudents 100 ["alice"]] ≠ ([] : List GatewayCall) :=
  ⟨rfl, by decide⟩

/-- Claim C4 (amended): in the update branch `upload_submission` always
returns the literal `True`, whether or not the reconciler modified anything;
modification is visible only in the mutation trace (the reconciler's file
deletes/creates and the policy-gated comment removal and unclaim), never in
the return value. -/
theorem update_branch_always_returns_true (gw : Gateway) (aid : Nat)
    (students : List String) (files : List NewFile) (mode : Mode)
    (sid0 : Nat) (sub : Submission)
    (hE : buildExisting gw aid students = [(sid0, sub)])
    (hex : mode.updateIfExists = true)
    (hcl : (!mode.updateIfClaimed && submission_list_is_unclaimed [sub]) = false)
    (hrg : resolveGuard [(sid0, sub)] students mode = none) :
    (upload_submission gw aid students files mode).1 =
      Except.ok UploadReturn.retTrue ∧
    (upload_submission gw aid students files mode).2 =
      GatewayCall.patchStudents sub.id students ::
        ((upload_submission_filediff gw sub files mode).2 ++
          (if (upload_submission_filediff gw sub files mode).1 then
            (if mode.removeComments then [GatewayCall.removeComments sub.id]
             else []) ++
            (if mode.doUnclaim then [unclaim_submission sub.id] else [])
          else [])) := by
  rw [upload_update_branch gw aid students files mode sid0 sub hE hex hcl hrg]
  exact ⟨rfl, rfl⟩

/-- The original C4 statement fails on the code: a run in which the
reconciler replaced a file and a run in which it changed nothing return the
same value (`True`), so the return value does not distinguish
updated-modified from updated-unchanged. -/
theorem update_return_does_not_indicate_modification :
    (upload_submission gwOne 1 ["alice"] [⟨"a.py", "py", "y"⟩] OVERWRITE).1 =
      (upload_submission gwOne 1 ["alice"] [⟨"a.py", "py", "x"⟩] OVERWRITE).1 ∧
    (upload_submission gwOne 1 ["alice"] [⟨"a.py", "py", "y"⟩] OVERWRITE).2 =
      [GatewayCall.patchStudents 1 ["alice"], GatewayCall.deleteFile 4,
       GatewayCall.postFile 1 "a.py" "y" "py", GatewayCall.removeComments 1,
       GatewayCall.patchGrader 1 "" (some false)] ∧
    (upload_submission gwOne 1 ["alice"] [⟨"a.py", "py", "x"⟩] OVERWRITE).2 =
      [GatewayCall.patchStudents 1 ["alice"]] :=
  ⟨rfl, rfl, rfl⟩

theorem update_branch_always_returns_true_witness :
    buildExisting gwOne 1 ["alice"] = [(1, subOne)] ∧
    (upload_submission gwOne 1 ["alice"] [⟨"a.py", "py", "y"⟩] OVERWRITE).1 =
      Except.ok UploadReturn.retTrue :=
  ⟨rfl, (update_branch_always_returns_true gwOne 1 ["alice"]
    [⟨"a.py", "py", "y"⟩] OVERWRITE 1 subOne rfl rfl rfl rfl).1⟩

end CodePost
